import Mathlib

/-!
Shallow embedding of the device/swap-chain/resource lifecycle manager of
HelloDesktop2D (src/DXHelpers.h, src/DXHelpers.cpp).

COM handles are modelled by their observable presence (`Bool`, or `Option Nat`
where a ghost identity is needed to distinguish successive instances);
HRESULTs are signed 32-bit values modelled as `Int` (negative = FAILED);
C++ exceptions are modelled by `Except WinError` for leaf helpers and by an
explicit `err : Option WinError` field in the result of compound operations,
so that member writes performed before a throw are kept, as they are in C++.
External API outcomes (the HRESULT each wrapped call returns) are inputs,
collected in environment structures.
-/

namespace DXHello

/-- HRESULT as a signed 32-bit value. The FAILED macro tests the sign bit,
i.e. negativity of the signed value. -/
abbrev HRESULT := Int

/-- FAILED(hr) macro: a negative HRESULT is a failure code. -/
def FAILED (hr : HRESULT) : Bool := hr < 0

/-- D2DERR_RECREATE_TARGET (0x8899000C) as a signed 32-bit value. -/
def D2DERR_RECREATE_TARGET : HRESULT := 0x8899000C - 2 ^ 32

/-- DXGI_ERROR_DEVICE_REMOVED (0x887A0005) as a signed 32-bit value. -/
def DXGI_ERROR_DEVICE_REMOVED : HRESULT := 0x887A0005 - 2 ^ 32

/-- E_FAIL (0x80004005) as a signed 32-bit value. -/
def E_FAIL : HRESULT := 0x80004005 - 2 ^ 32

/-- S_OK success code. -/
def S_OK : HRESULT := 0

/-- The two exception types of DXHelpers.h: DeviceLostException (the spec's
DeviceLostError) and plain WinException (the spec's PlatformError), each
carrying the failing HRESULT. -/
inductive WinError where
  | deviceLost (hr : HRESULT)
  | winException (hr : HRESULT)
  deriving DecidableEq, Repr

/-- Whether an exception is a DeviceLostException (matched by the catch
clause in DXWindowContext::Paint). -/
def WinError.isDeviceLost : WinError → Bool
  | WinError.deviceLost _ => true
  | WinError.winException _ => false

/-- WinException::Throw (DXHelpers.cpp:10-23): D2DERR_RECREATE_TARGET and
DXGI_ERROR_DEVICE_REMOVED become DeviceLostException, everything else a
plain WinException. -/
def WinException.Throw (hr : HRESULT) : WinError :=
  if hr = D2DERR_RECREATE_TARGET ∨ hr = DXGI_ERROR_DEVICE_REMOVED then
    WinError.deviceLost hr
  else
    WinError.winException hr

/-- HR helper (DXHelpers.h:67-73): throw (via WinException::Throw) exactly
when the HRESULT is a failure code. -/
def HR (hr : HRESULT) : Except WinError Unit :=
  if FAILED hr then Except.error (WinException.Throw hr) else Except.ok ()

/-- DXDevice state (DXHelpers.h:195-248). The three resettable handles are
modelled by presence; `creations` is a ghost instrumentation counter of
completed underlying device creations (it is written only where
DXDevice::EnsureInitialized assigns the member handles). -/
structure DXDevice where
  d3dContext : Bool
  dxgiDevice : Bool
  d2dDevice : Bool
  generation : Nat
  creations : Nat
  deriving DecidableEq, Repr

/-- A freshly constructed DXDevice: no handles, generation 0. -/
def DXDevice.fresh : DXDevice :=
  { d3dContext := false, dxgiDevice := false, d2dDevice := false
    generation := 0, creations := 0 }

/-- DXDevice::IsInitialized (DXHelpers.h:198-201): tests the D2D device
handle only. -/
def DXDevice.IsInitialized (d : DXDevice) : Bool := d.d2dDevice

/-- DXDevice::Reset (DXHelpers.cpp:116-121): releases the three handles,
never fails, does not touch the generation counter. -/
def DXDevice.Reset (d : DXDevice) : DXDevice :=
  { d with d3dContext := false, dxgiDevice := false, d2dDevice := false }

/-- Outcomes of the external API calls made inside DXDevice::EnsureInitialized:
D3D11CreateDevice, ID3D11Device::QueryInterface(IDXGIDevice), and
ID2D1Factory7::CreateDevice. -/
structure DeviceEnv where
  d3dCreateHR : HRESULT
  queryInterfaceHR : HRESULT
  d2dCreateHR : HRESULT
  deriving DecidableEq, Repr

/-- A DeviceEnv in which every API call succeeds. -/
def envOkDev : DeviceEnv := { d3dCreateHR := 0, queryInterfaceHR := 0, d2dCreateHR := 0 }

/-- DXDevice::EnsureInitialized (DXHelpers.cpp:123-159). No-op when already
initialized; otherwise creates the D3D device (HR-checked), queries the DXGI
device (HR-checked), then calls ID2D1Factory7::CreateDevice — whose HRESULT
the source does NOT wrap in HR (DXHelpers.cpp:152), so a failure there is
ignored and leaves the d2dDevice out-parameter null — and finally assigns all
three members and increments the generation. -/
def DXDevice.EnsureInitialized (env : DeviceEnv) (d : DXDevice) :
    Except WinError DXDevice :=
  if d.IsInitialized then Except.ok d
  else
    match HR env.d3dCreateHR with
    | Except.error e => Except.error e
    | Except.ok _ =>
      match HR env.queryInterfaceHR with
      | Except.error e => Except.error e
      | Except.ok _ =>
        Except.ok { d with
          d3dContext := true
          dxgiDevice := true
          d2dDevice := !FAILED env.d2dCreateHR
          generation := d.generation + 1
          creations := d.creations + 1 }

/-- One call in a DXDevice call sequence: Reset(), or EnsureInitialized()
under a given environment. -/
inductive DevOp where
  | reset
  | ensureInit (env : DeviceEnv)
  deriving DecidableEq, Repr

/-- Execute one DevOp. A thrown exception leaves the device unchanged, as in
the source (all member writes happen after the last possible throw). -/
def DXDevice.runOp (d : DXDevice) : DevOp → DXDevice
  | DevOp.reset => d.Reset
  | DevOp.ensureInit env =>
    match DXDevice.EnsureInitialized env d with
    | Except.ok d2 => d2
    | Except.error _ => d

/-- Execute a sequence of DevOps from left to right. -/
def DXDevice.runOps (d : DXDevice) : List DevOp → DXDevice
  | [] => d
  | op :: ops => DXDevice.runOps (d.runOp op) ops

/-- Exhaustive description of DXDevice::EnsureInitialized: already
initialized (no-op), an exception (state unchanged), or the full assignment
with the generation bumped. -/
lemma DXDevice.ensureInit_cases (env : DeviceEnv) (d : DXDevice) :
    (d.IsInitialized = true ∧ DXDevice.EnsureInitialized env d = Except.ok d) ∨
    (d.IsInitialized = false ∧ ∃ e, DXDevice.EnsureInitialized env d = Except.error e) ∨
    (d.IsInitialized = false ∧ DXDevice.EnsureInitialized env d =
      Except.ok { d with
        d3dContext := true
        dxgiDevice := true
        d2dDevice := !FAILED env.d2dCreateHR
        generation := d.generation + 1
        creations := d.creations + 1 }) := by
  unfold DXDevice.EnsureInitialized
  by_cases h : d.IsInitialized
  · left
    exact ⟨h, by simp [h]⟩
  · rw [Bool.not_eq_true] at h
    cases h1 : HR env.d3dCreateHR with
    | error e =>
      right; left
      exact ⟨h, e, by simp [h, h1]⟩
    | ok u =>
      cases h2 : HR env.queryInterfaceHR with
      | error e =>
        right; left
        exact ⟨h, e, by simp [h, h1, h2]⟩
      | ok v =>
        right; right
        exact ⟨h, by simp [h, h1, h2]⟩

/-- A successful EnsureInitialized run never lowers the generation. -/
lemma DXDevice.runOp_generation_le (d : DXDevice) (op : DevOp) :
    d.generation ≤ (d.runOp op).generation := by
  cases op with
  | reset => exact Nat.le_refl _
  | ensureInit env =>
    rcases DXDevice.ensureInit_cases env d with ⟨_, h⟩ | ⟨_, e, h⟩ | ⟨_, h⟩ <;>
      simp [DXDevice.runOp, h]

/-- Generation is non-decreasing along any call sequence. -/
lemma DXDevice.runOps_generation_le (d : DXDevice) (ops : List DevOp) :
    d.generation ≤ (DXDevice.runOps d ops).generation := by
  induction ops generalizing d with
  | nil => exact Nat.le_refl _
  | cons op ops ih =>
    exact Nat.le_trans (DXDevice.runOp_generation_le d op) (ih (d.runOp op))

/-- C4: across any finite sequence of Reset() / EnsureInitialized() calls the
generation counter is non-decreasing; Reset() leaves it unchanged; a
successful EnsureInitialized() that actually (re)creates the device (the
device was not initialized) increments it by exactly one. -/
theorem device_generation_monotone (d : DXDevice) (ops : List DevOp)
    (env : DeviceEnv) (d2 : DXDevice) :
    d.generation ≤ (DXDevice.runOps d ops).generation ∧
    (DXDevice.Reset d).generation = d.generation ∧
    (d.IsInitialized = false → DXDevice.EnsureInitialized env d = Except.ok d2 →
      d2.generation = d.generation + 1) := by
  refine ⟨DXDevice.runOps_generation_le d ops, rfl, ?_⟩
  intro h0 hok
  rcases DXDevice.ensureInit_cases env d with ⟨hi, _⟩ | ⟨_, e, he⟩ | ⟨_, h⟩
  · rw [h0] at hi
    exact absurd hi (by simp)
  · rw [he] at hok
    exact absurd hok (by simp)
  · rw [h] at hok
    cases hok
    rfl

/-- The device state after a fully successful initialization from fresh. -/
def devAfterOk : DXDevice :=
  { d3dContext := true, dxgiDevice := true, d2dDevice := true
    generation := 1, creations := 1 }

/-- Witness for C4 at a concrete sequence: one successful initialization then
a Reset, starting from a fresh device. -/
theorem device_generation_monotone_witness :
    DXDevice.fresh.generation ≤
      (DXDevice.runOps DXDevice.fresh [DevOp.ensureInit envOkDev, DevOp.reset]).generation ∧
    (DXDevice.Reset DXDevice.fresh).generation = DXDevice.fresh.generation ∧
    devAfterOk.generation = DXDevice.fresh.generation + 1 := by
  have h := device_generation_monotone DXDevice.fresh
    [DevOp.ensureInit envOkDev, DevOp.reset] envOkDev devAfterOk
  exact ⟨h.1, h.2.1, h.2.2 rfl rfl⟩

/-- C5: if EnsureInitialized() on an uninitialized device succeeds and leaves
the device initialized, it performed exactly one underlying device creation,
and a second EnsureInitialized() with no intervening Reset() is a no-op:
it returns the state unchanged (so the generation and the creation count are
unchanged after the second call). -/
theorem ensure_twice_single_creation (env1 env2 : DeviceEnv) (d d1 : DXDevice)
    (h0 : d.IsInitialized = false)
    (h1 : DXDevice.EnsureInitialized env1 d = Except.ok d1)
    (h2 : d1.IsInitialized = true) :
    DXDevice.EnsureInitialized env2 d1 = Except.ok d1 ∧
    d1.creations = d.creations + 1 ∧
    d1.generation = d.generation + 1 := by
  refine ⟨by simp [DXDevice.EnsureInitialized, h2], ?_, ?_⟩ <;>
  · rcases DXDevice.ensureInit_cases env1 d with ⟨hi, _⟩ | ⟨_, e, he⟩ | ⟨_, h⟩
    · rw [h0] at hi
      exact absurd hi (by simp)
    · rw [he] at h1
      exact absurd h1 (by simp)
    · rw [h] at h1
      cases h1
      rfl

/-- Witness for C5: two EnsureInitialized calls from fresh under an
all-success environment. -/
theorem ensure_twice_single_creation_witness :
    DXDevice.EnsureInitialized envOkDev devAfterOk = Except.ok devAfterOk ∧
    devAfterOk.creations = DXDevice.fresh.creations + 1 ∧
    devAfterOk.generation = DXDevice.fresh.generation + 1 :=
  ensure_twice_single_creation envOkDev envOkDev DXDevice.fresh devAfterOk rfl rfl rfl

/-- C3 (observed divergence): when D3D11CreateDevice and QueryInterface
succeed but ID2D1Factory7::CreateDevice fails (E_FAIL), the unwrapped call at
DXHelpers.cpp:152 swallows the failure: EnsureInitialized returns normally
(no PlatformError), the D3D and DXGI handles are present while the D2D handle
is absent (a partially-constructed state), and the generation has been
incremented. -/
theorem d2d_create_failure_partial_init :
    DXDevice.EnsureInitialized
      { d3dCreateHR := S_OK, queryInterfaceHR := S_OK, d2dCreateHR := E_FAIL }
      DXDevice.fresh =
    Except.ok { d3dContext := true, dxgiDevice := true, d2dDevice := false
                generation := 1, creations := 1 } := by
  rfl

/-- C8: HR raises DeviceLostError exactly for the two recognized device-loss
codes, raises PlatformError for every other failing code, and raises nothing
for succeeding codes. -/
theorem hr_error_classification (hr : HRESULT) :
    (HR hr = Except.error (WinError.deviceLost hr) ↔
      (hr = D2DERR_RECREATE_TARGET ∨ hr = DXGI_ERROR_DEVICE_REMOVED)) ∧
    (HR hr = Except.error (WinError.winException hr) ↔
      (FAILED hr = true ∧
        ¬(hr = D2DERR_RECREATE_TARGET ∨ hr = DXGI_ERROR_DEVICE_REMOVED))) ∧
    (HR hr = Except.ok () ↔ FAILED hr = false) := by
  have hfail1 : FAILED D2DERR_RECREATE_TARGET = true := by decide
  have hfail2 : FAILED DXGI_ERROR_DEVICE_REMOVED = true := by decide
  unfold HR WinException.Throw
  by_cases hf : FAILED hr
  · by_cases hc : hr = D2DERR_RECREATE_TARGET ∨ hr = DXGI_ERROR_DEVICE_REMOVED
    · simp [hf, hc]
    · simp [hf, hc]
  · have hc : ¬(hr = D2DERR_RECREATE_TARGET ∨ hr = DXGI_ERROR_DEVICE_REMOVED) := by
      rintro (rfl | rfl)
      · rw [hfail1] at hf
        exact hf rfl
      · rw [hfail2] at hf
        exact hf rfl
    simp [hf, hc]

/-- A registered device-dependent resource (Resource2DBase / SolidColorBrush,
DXHelpers.h:103-165). `handle = some cid` models a non-null m_ptr created
against the drawing-context instance with ghost identity `cid`;
`handle = none` models a null m_ptr. -/
structure Resource where
  handle : Option Nat
  deriving DecidableEq, Repr

/-- Resource2DBase::IsInitialized (DXHelpers.h:111-114). -/
def Resource.IsInitialized (r : Resource) : Bool := r.handle.isSome

/-- Resource2DBase::Reset (DXHelpers.h:116-119): drop the handle. -/
def Resource.Reset (r : Resource) : Resource := { r with handle := none }

/-- SolidColorBrush::Initialize (DXHelpers.cpp:80-83): HR-checked creation of
the device-side object against the given drawing context; on success the
handle records the creating context's ghost identity. -/
def Resource.Initialize (hr : HRESULT) (cid : Nat) (r : Resource) :
    Except WinError Resource :=
  match HR hr with
  | Except.error e => Except.error e
  | Except.ok _ => Except.ok { r with handle := some cid }

/-- ResourceList2D::ResetAll (DXHelpers.cpp:61-67). -/
def ResourceList2D.ResetAll (rs : List Resource) : List Resource :=
  rs.map Resource.Reset

/-- ResourceList2D::EnsureInitialized (DXHelpers.cpp:69-78): initialize, in
order, every resource that is not already initialized; an already-initialized
resource is left untouched. `hr` is the outcome of each underlying creation
call. The loop mutates the resources in place, so on a failure the resources
already processed keep their new handles: the result is the final list
together with the exception that aborted the loop, if any (the failing
resource itself stays uninitialized, since its out-parameter is left null). -/
def ResourceList2D.EnsureInitialized (hr : HRESULT) (cid : Nat) :
    List Resource → List Resource × Option WinError
  | [] => ([], none)
  | r :: rest =>
    if r.IsInitialized then
      let p := ResourceList2D.EnsureInitialized hr cid rest
      (r :: p.1, p.2)
    else
      match Resource.Initialize hr cid r with
      | Except.error e => (r :: rest, some e)
      | Except.ok r2 =>
        let p := ResourceList2D.EnsureInitialized hr cid rest
        (r2 :: p.1, p.2)

/-- DXWindowContext state (DXHelpers.h:254-359). The swap chain is modelled
by presence; the D2D device context by `Option Nat`, the `Nat` being a ghost
identity distinguishing successive context instances (`nextContextId` is the
ghost supply of fresh identities). -/
structure DXWindowContext where
  deviceGeneration : Nat
  pixelWidth : Nat
  pixelHeight : Nat
  dpi : Nat
  swapChain : Bool
  d2dContext : Option Nat
  resourceList : List Resource
  nextContextId : Nat
  deriving DecidableEq, Repr

/-- DXWindowContext::ResetWindow (DXHelpers.cpp:327-331): drop the D2D
context and the swap chain; never fails. -/
def DXWindowContext.ResetWindow (w : DXWindowContext) : DXWindowContext :=
  { w with d2dContext := none, swapChain := false }

/-- DXWindowContext::GetWidthDips (DXHelpers.h:284-287), the float
arithmetic idealized as exact rational arithmetic. -/
def DXWindowContext.GetWidthDips (w : DXWindowContext) : ℚ :=
  (w.pixelWidth : ℚ) * (96 / (w.dpi : ℚ))

/-- DXWindowContext::GetHeightDips (DXHelpers.h:289-292), idealized as exact
rational arithmetic. -/
def DXWindowContext.GetHeightDips (w : DXWindowContext) : ℚ :=
  (w.pixelHeight : ℚ) * (96 / (w.dpi : ℚ))

/-- Outcomes of the external API calls made inside
DXWindowContext::EnsureInitialized, in source order (DXHelpers.cpp:349-430):
the nested DXDevice::EnsureInitialized environment, GetAdapter, GetParent,
CreateSwapChain, GetBuffer, CreateDeviceContext, CreateBitmapFromDxgiSurface,
and the per-resource creation calls of the registry sweep. -/
structure WindowEnv where
  deviceEnv : DeviceEnv
  getAdapterHR : HRESULT
  getParentHR : HRESULT
  createSwapChainHR : HRESULT
  getBufferHR : HRESULT
  createDeviceContextHR : HRESULT
  createBitmapHR : HRESULT
  brushCreateHR : HRESULT
  deriving DecidableEq, Repr

/-- A WindowEnv in which every API call succeeds. -/
def envOkWin : WindowEnv :=
  { deviceEnv := envOkDev, getAdapterHR := 0, getParentHR := 0
    createSwapChainHR := 0, getBufferHR := 0, createDeviceContextHR := 0
    createBitmapHR := 0, brushCreateHR := 0 }

/-- The first exception thrown by a sequence of HR-checked calls, in order. -/
def firstError : List HRESULT → Option WinError
  | [] => none
  | hr :: rest =>
    match HR hr with
    | Except.error e => some e
    | Except.ok _ => firstError rest

/-- Result of a compound DXWindowContext operation: the final shared-device
state, the final window-context state, and the exception that propagated out
of it, if any (member writes performed before the throw are kept). -/
structure StepResult where
  device : DXDevice
  window : DXWindowContext
  err : Option WinError
  deriving DecidableEq, Repr

/-- DXWindowContext::EnsureInitialized (DXHelpers.cpp:349-430). If the D2D
context is present, only sweep the resource registry. Otherwise: initialize
the device and capture its generation (this member write persists even if a
later call throws), run the HR-checked chain GetAdapter / GetParent /
CreateSwapChain / GetBuffer / CreateDeviceContext / CreateBitmap, sweep the
registry against the freshly created context, and only then assign the swap
chain and D2D context members. -/
def DXWindowContext.EnsureInitialized (env : WindowEnv) (d : DXDevice)
    (w : DXWindowContext) : StepResult :=
  match w.d2dContext with
  | some cid =>
    let p := ResourceList2D.EnsureInitialized env.brushCreateHR cid w.resourceList
    { device := d, window := { w with resourceList := p.1 }, err := p.2 }
  | none =>
    match DXDevice.EnsureInitialized env.deviceEnv d with
    | Except.error e => { device := d, window := w, err := some e }
    | Except.ok d1 =>
      let w1 := { w with deviceGeneration := d1.generation }
      match firstError [env.getAdapterHR, env.getParentHR, env.createSwapChainHR,
          env.getBufferHR, env.createDeviceContextHR, env.createBitmapHR] with
      | some e => { device := d1, window := w1, err := some e }
      | none =>
        let p := ResourceList2D.EnsureInitialized env.brushCreateHR
          w1.nextContextId w1.resourceList
        match p.2 with
        | some e =>
          { device := d1, window := { w1 with resourceList := p.1 }
            err := some e }
        | none =>
          { device := d1
            window := { w1 with
              swapChain := true
              d2dContext := some w1.nextContextId
              resourceList := p.1
              nextContextId := w1.nextContextId + 1 }
            err := none }

/-- DXWindowContext::ResetDevice (DXHelpers.cpp:333-347): reset the window's
swap chain and D2D context, reset every registered resource, then reset the
shared device only if no sibling context already reset and reinitialized it
(captured generation still equals the device's generation). -/
def DXWindowContext.ResetDevice (d : DXDevice) (w : DXWindowContext) :
    DXDevice × DXWindowContext :=
  let w1 := w.ResetWindow
  let w2 := { w1 with resourceList := ResourceList2D.ResetAll w1.resourceList }
  if w2.deviceGeneration = d.generation then (d.Reset, w2) else (d, w2)

/-- Hook invocations observable by the derived class. A sizeChangedHook event
records the stored pixel size at the moment OnSizeChanged ran. -/
inductive HookEvent where
  | sizeChangedHook (pixelWidth pixelHeight : Nat)
  deriving DecidableEq, Repr

/-- Result of a resize notification: final states, the hook invocations made,
and the exception that propagated, if any. -/
structure ResizeResult where
  device : DXDevice
  window : DXWindowContext
  hooks : List HookEvent
  err : Option WinError
  deriving DecidableEq, Repr

/-- DXWindowContext::OnResizeInternal (DXHelpers.cpp:203-219): if the new
pixel size equals the stored size, do nothing. Otherwise store the new size
first, tear down the surface and context (ResetWindow), rebuild them
(EnsureInitialized), and finally invoke the OnSizeChanged hook. -/
def DXWindowContext.OnResizeInternal (env : WindowEnv) (newW newH : Nat)
    (d : DXDevice) (w : DXWindowContext) : ResizeResult :=
  if newW ≠ w.pixelWidth ∨ newH ≠ w.pixelHeight then
    let w1 := { w with pixelWidth := newW, pixelHeight := newH }
    let w2 := w1.ResetWindow
    let s := DXWindowContext.EnsureInitialized env d w2
    match s.err with
    | some e => { device := s.device, window := s.window, hooks := [], err := some e }
    | none =>
      { device := s.device, window := s.window
        hooks := [HookEvent.sizeChangedHook s.window.pixelWidth s.window.pixelHeight]
        err := none }
  else
    { device := d, window := w, hooks := [], err := none }

/-- Outcomes of the external calls made by one DXWindowContext::PaintInternal
attempt: the EnsureInitialized environment, the exception (if any) thrown by
the virtual RenderContent callback, and the HRESULTs of EndDraw and Present. -/
structure PaintEnv where
  winEnv : WindowEnv
  renderError : Option WinError
  endDrawHR : HRESULT
  presentHR : HRESULT
  deriving DecidableEq, Repr

/-- DXWindowContext::PaintInternal (DXHelpers.cpp:311-325): EnsureInitialized,
BeginDraw, RenderContent, HR(EndDraw), HR(Present); the first exception
propagates. -/
def DXWindowContext.PaintInternal (env : PaintEnv) (d : DXDevice)
    (w : DXWindowContext) : StepResult :=
  let s := DXWindowContext.EnsureInitialized env.winEnv d w
  match s.err with
  | some e => { s with err := some e }
  | none =>
    match env.renderError with
    | some e => { s with err := some e }
    | none =>
      match HR env.endDrawHR with
      | Except.error e => { s with err := some e }
      | Except.ok _ =>
        match HR env.presentHR with
        | Except.error e => { s with err := some e }
        | Except.ok _ => { s with err := none }

/-- The calls DXWindowContext::Paint makes, in order. -/
inductive PaintStep where
  | paintInternalCall
  | resetDeviceCall
  deriving DecidableEq, Repr

/-- Result of DXWindowContext::Paint: final states, the propagated exception
(if any), and the ordered trace of PaintInternal / ResetDevice calls made. -/
structure PaintResult where
  device : DXDevice
  window : DXWindowContext
  err : Option WinError
  trace : List PaintStep
  deriving DecidableEq, Repr

/-- DXWindowContext::Paint (DXHelpers.cpp:298-309): try PaintInternal; if it
throws a DeviceLostException, ResetDevice and retry PaintInternal exactly
once, the retry's exception (if any) propagating; any other exception from
the first attempt propagates without a retry. `env1` and `env2` give the
external outcomes of the first and (if reached) second attempt. -/
def DXWindowContext.Paint (env1 env2 : PaintEnv) (d : DXDevice)
    (w : DXWindowContext) : PaintResult :=
  let s1 := DXWindowContext.PaintInternal env1 d w
  match s1.err with
  | none =>
    { device := s1.device, window := s1.window, err := none
      trace := [PaintStep.paintInternalCall] }
  | some e =>
    if e.isDeviceLost then
      let p := DXWindowContext.ResetDevice s1.device s1.window
      let s2 := DXWindowContext.PaintInternal env2 p.1 p.2
      { device := s2.device, window := s2.window, err := s2.err
        trace := [PaintStep.paintInternalCall, PaintStep.resetDeviceCall,
                  PaintStep.paintInternalCall] }
    else
      { device := s1.device, window := s1.window, err := some e
        trace := [PaintStep.paintInternalCall] }

/-- A successful registry sweep initializes exactly the resources that were
not yet initialized, against the sweeping context, and leaves every
already-initialized resource untouched. -/
lemma sweep_ok_eq (hr : HRESULT) (cid : Nat) :
    ∀ rs : List Resource,
      (ResourceList2D.EnsureInitialized hr cid rs).2 = none →
      (ResourceList2D.EnsureInitialized hr cid rs).1 =
        rs.map fun r =>
          if r.IsInitialized then r else { handle := some cid } := by
  intro rs
  induction rs with
  | nil => intro _; rfl
  | cons r rest ih =>
    intro h
    unfold ResourceList2D.EnsureInitialized at h ⊢
    by_cases hr0 : r.IsInitialized
    · rw [if_pos hr0] at h ⊢
      dsimp only at h ⊢
      simp [hr0, ih h]
    · rw [if_neg hr0] at h ⊢
      unfold Resource.Initialize at h ⊢
      cases hi : HR hr with
      | error e =>
        rw [hi] at h
        simp at h
      | ok u =>
        rw [hi] at h
        simp [hr0] at h ⊢
        exact ih h

/-- Explicit form of a successful DXWindowContext::EnsureInitialized run from
the torn-down state (no D2D context): the device was successfully
initialized, the captured generation is the device's, the swap chain and a
fresh D2D context are both set, and the registry was swept against the fresh
context. -/
lemma windowEnsure_none_ok (env : WindowEnv) (d : DXDevice)
    (w : DXWindowContext) (hc : w.d2dContext = none)
    (herr : (DXWindowContext.EnsureInitialized env d w).err = none) :
    ∃ d1, DXDevice.EnsureInitialized env.deviceEnv d = Except.ok d1 ∧
      DXWindowContext.EnsureInitialized env d w =
        { device := d1
          window := { w with
            deviceGeneration := d1.generation
            swapChain := true
            d2dContext := some w.nextContextId
            resourceList := w.resourceList.map fun r =>
              if r.IsInitialized then r else { handle := some w.nextContextId }
            nextContextId := w.nextContextId + 1 }
          err := none } := by
  unfold DXWindowContext.EnsureInitialized at herr ⊢
  simp only [hc] at herr ⊢
  cases hd : DXDevice.EnsureInitialized env.deviceEnv d with
  | error e => simp [hd] at herr
  | ok d1 =>
    simp only [hd] at herr ⊢
    cases hf : firstError [env.getAdapterHR, env.getParentHR,
        env.createSwapChainHR, env.getBufferHR, env.createDeviceContextHR,
        env.createBitmapHR] with
    | some e => simp [hf] at herr
    | none =>
      simp only [hf] at herr ⊢
      cases hs : (ResourceList2D.EnsureInitialized env.brushCreateHR
          w.nextContextId w.resourceList).2 with
      | some e => simp [hs] at herr
      | none =>
        simp only [hs]
        refine ⟨d1, rfl, ?_⟩
        rw [sweep_ok_eq env.brushCreateHR w.nextContextId w.resourceList hs]

/-- C1: the paint protocol retries exactly once, and only on device loss. If
the first PaintInternal attempt throws a DeviceLostException, Paint performs
exactly one ResetDevice and exactly one more PaintInternal (two in total,
with the ResetDevice between them) and the second attempt's exception, if
any, propagates; if the first attempt succeeds, or throws any other
exception, there is exactly one PaintInternal, no ResetDevice, and the
exception (if any) propagates unhandled. -/
theorem paint_retries_once (env1 env2 : PaintEnv) (d : DXDevice)
    (w : DXWindowContext) :
    (∀ e, (DXWindowContext.PaintInternal env1 d w).err = some e →
      e.isDeviceLost = true →
      (DXWindowContext.Paint env1 env2 d w).trace =
        [PaintStep.paintInternalCall, PaintStep.resetDeviceCall,
         PaintStep.paintInternalCall] ∧
      (DXWindowContext.Paint env1 env2 d w).err =
        (DXWindowContext.PaintInternal env2
          (DXWindowContext.ResetDevice
            (DXWindowContext.PaintInternal env1 d w).device
            (DXWindowContext.PaintInternal env1 d w).window).1
          (DXWindowContext.ResetDevice
            (DXWindowContext.PaintInternal env1 d w).device
            (DXWindowContext.PaintInternal env1 d w).window).2).err) ∧
    ((DXWindowContext.PaintInternal env1 d w).err = none →
      (DXWindowContext.Paint env1 env2 d w).trace =
        [PaintStep.paintInternalCall] ∧
      (DXWindowContext.Paint env1 env2 d w).err = none) ∧
    (∀ e, (DXWindowContext.PaintInternal env1 d w).err = some e →
      e.isDeviceLost = false →
      (DXWindowContext.Paint env1 env2 d w).trace =
        [PaintStep.paintInternalCall] ∧
      (DXWindowContext.Paint env1 env2 d w).err = some e) := by
  refine ⟨?_, ?_, ?_⟩
  · intro e he hdl
    unfold DXWindowContext.Paint
    dsimp only
    rw [he]
    dsimp only
    rw [hdl]
    exact ⟨rfl, rfl⟩
  · intro he
    unfold DXWindowContext.Paint
    dsimp only
    rw [he]
    exact ⟨rfl, rfl⟩
  · intro e he hdl
    unfold DXWindowContext.Paint
    dsimp only
    rw [he]
    dsimp only
    rw [hdl]
    exact ⟨rfl, rfl⟩

/-- An already-initialized device shared by the example window contexts. -/
def dInit : DXDevice := devAfterOk

/-- An example window context fully initialized against dInit: captured
generation 1, live swap chain and D2D context instance 0. -/
def wInit : DXWindowContext :=
  { deviceGeneration := 1, pixelWidth := 100, pixelHeight := 100, dpi := 96
    swapChain := true, d2dContext := some 0, resourceList := []
    nextContextId := 1 }

/-- A paint-attempt environment in which everything succeeds except Present,
which reports DXGI_ERROR_DEVICE_REMOVED. -/
def envLost : PaintEnv :=
  { winEnv := envOkWin, renderError := none, endDrawHR := 0
    presentHR := DXGI_ERROR_DEVICE_REMOVED }

/-- Witness for C1: a paint whose every attempt loses the device performs
exactly two PaintInternal calls with one ResetDevice between them, and the
second DeviceLostException propagates out of Paint. -/
theorem paint_retries_once_witness :
    (DXWindowContext.Paint envLost envLost dInit wInit).trace =
      [PaintStep.paintInternalCall, PaintStep.resetDeviceCall,
       PaintStep.paintInternalCall] ∧
    (DXWindowContext.Paint envLost envLost dInit wInit).err =
      some (WinError.deviceLost DXGI_ERROR_DEVICE_REMOVED) := by
  have h := (paint_retries_once envLost envLost dInit wInit).1
    (WinError.deviceLost DXGI_ERROR_DEVICE_REMOVED) rfl rfl
  refine ⟨h.1, ?_⟩
  rw [h.2]
  rfl

/-- C10: the derived logical (DIP) size is physical pixels times 96/dpi
(exact rational arithmetic standing for the source's float arithmetic): at
pixel width 1000 and DPI 192 the logical width is exactly 500, and at DPI 96
the logical width and height equal the pixel width and height. -/
theorem dips_scale (w : DXWindowContext) :
    w.GetWidthDips = (w.pixelWidth : ℚ) * (96 / (w.dpi : ℚ)) ∧
    w.GetHeightDips = (w.pixelHeight : ℚ) * (96 / (w.dpi : ℚ)) ∧
    (w.pixelWidth = 1000 → w.dpi = 192 → w.GetWidthDips = 500) ∧
    (w.dpi = 96 → w.GetWidthDips = (w.pixelWidth : ℚ)) ∧
    (w.dpi = 96 → w.GetHeightDips = (w.pixelHeight : ℚ)) := by
  refine ⟨rfl, rfl, ?_, ?_, ?_⟩
  · intro hw hd
    unfold DXWindowContext.GetWidthDips
    rw [hw, hd]
    norm_num
  · intro hd
    unfold DXWindowContext.GetWidthDips
    rw [hd]
    norm_num
  · intro hd
    unfold DXWindowContext.GetHeightDips
    rw [hd]
    norm_num

/-- C6: a resize notification with the current pixel size is a complete
no-op (no teardown, no hook, no state change); a resize with a different
size, when the rebuild succeeds, stores the new size, rebuilds the surface
and drawing context (a live swap chain and a freshly created context), and
invokes the OnSizeChanged hook exactly once, observing the new size. -/
theorem resize_noop_or_rebuild (env : WindowEnv) (newW newH : Nat)
    (d : DXDevice) (w : DXWindowContext) :
    (newW = w.pixelWidth ∧ newH = w.pixelHeight →
      DXWindowContext.OnResizeInternal env newW newH d w =
        { device := d, window := w, hooks := [], err := none }) ∧
    ((newW ≠ w.pixelWidth ∨ newH ≠ w.pixelHeight) →
      (DXWindowContext.OnResizeInternal env newW newH d w).err = none →
      (DXWindowContext.OnResizeInternal env newW newH d w).hooks =
        [HookEvent.sizeChangedHook newW newH] ∧
      (DXWindowContext.OnResizeInternal env newW newH d w).window.pixelWidth =
        newW ∧
      (DXWindowContext.OnResizeInternal env newW newH d w).window.pixelHeight =
        newH ∧
      (DXWindowContext.OnResizeInternal env newW newH d w).window.d2dContext =
        some w.nextContextId ∧
      (DXWindowContext.OnResizeInternal env newW newH d w).window.swapChain =
        true ∧
      (∀ cid, w.d2dContext = some cid → cid < w.nextContextId →
        (DXWindowContext.OnResizeInternal env newW newH d w).window.d2dContext ≠
          w.d2dContext)) := by
  constructor
  · rintro ⟨hw, hh⟩
    have hcond : ¬(newW ≠ w.pixelWidth ∨ newH ≠ w.pixelHeight) := by
      push_neg
      exact ⟨hw, hh⟩
    unfold DXWindowContext.OnResizeInternal
    rw [if_neg hcond]
  · intro hne herr
    unfold DXWindowContext.OnResizeInternal at herr ⊢
    rw [if_pos hne] at herr ⊢
    dsimp only at herr ⊢
    have hnone : (DXWindowContext.EnsureInitialized env d
        (({ w with pixelWidth := newW, pixelHeight := newH } :
          DXWindowContext).ResetWindow)).err = none := by
      cases hs : (DXWindowContext.EnsureInitialized env d
          (({ w with pixelWidth := newW, pixelHeight := newH } :
            DXWindowContext).ResetWindow)).err with
      | none => rfl
      | some e =>
        rw [hs] at herr
        simp at herr
    obtain ⟨d1, hd1, hEq⟩ := windowEnsure_none_ok env d
      (({ w with pixelWidth := newW, pixelHeight := newH } :
        DXWindowContext).ResetWindow) rfl hnone
    rw [hEq]
    refine ⟨rfl, rfl, rfl, rfl, rfl, ?_⟩
    intro cid hcid hlt hcontra
    rw [hcid] at hcontra
    have hix : w.nextContextId = cid := by
      injection hcontra
    omega

/-- Witness for C6: resizing wInit to its current 100×100 is the identity
with no hook; resizing it to 200×100 succeeds, stores the new size, leaves a
live swap chain and a fresh drawing context, and fires the hook once with
the new size. -/
theorem resize_noop_or_rebuild_witness :
    DXWindowContext.OnResizeInternal envOkWin 100 100 dInit wInit =
      { device := dInit, window := wInit, hooks := [], err := none } ∧
    (DXWindowContext.OnResizeInternal envOkWin 200 100 dInit wInit).hooks =
      [HookEvent.sizeChangedHook 200 100] ∧
    (DXWindowContext.OnResizeInternal envOkWin 200 100 dInit wInit).window.pixelWidth =
      200 ∧
    (DXWindowContext.OnResizeInternal envOkWin 200 100 dInit wInit).window.d2dContext =
      some wInit.nextContextId := by
  have h1 := (resize_noop_or_rebuild envOkWin 100 100 dInit wInit).1 ⟨rfl, rfl⟩
  have h2 := (resize_noop_or_rebuild envOkWin 200 100 dInit wInit).2
    (Or.inl (by decide)) rfl
  exact ⟨h1, h2.1, h2.2.1, h2.2.2.2.1⟩

/-- A window context holding one resource initialized against drawing-context
instance 0 and one never-initialized resource, itself fully initialized
against dInit. -/
def wRes : DXWindowContext :=
  { deviceGeneration := 1, pixelWidth := 100, pixelHeight := 100, dpi := 96
    swapChain := true, d2dContext := some 0
    resourceList := [{ handle := some 0 }, { handle := none }]
    nextContextId := 1 }

/-- C7 counterexample: resizing wRes from 100×100 to 200×100 succeeds and
creates drawing-context instance 1, yet the previously-initialized resource
still holds the handle created against the old context (instance 0): its
initialized handle was not cleared and it was not reinitialized against the
new context. Only the resource that was never initialized is created against
the new context. -/
theorem resize_does_not_clear_resources_cex :
    (DXWindowContext.OnResizeInternal envOkWin 200 100 dInit wRes).err = none ∧
    (DXWindowContext.OnResizeInternal envOkWin 200 100 dInit wRes).window.d2dContext =
      some 1 ∧
    (DXWindowContext.OnResizeInternal envOkWin 200 100 dInit wRes).window.resourceList =
      [{ handle := some 0 }, { handle := some 1 }] := by
  exact ⟨rfl, rfl, rfl⟩

/-- C7 (amended): a changed-size resize tears down the surface and drawing
context but does not clear the registered resources' handles; the
EnsureInitialized pass during the resize initializes, against the newly
created drawing context, exactly the resources that were not already
initialized, while every previously-initialized resource keeps the handle it
had before the resize. -/
theorem resize_keeps_initialized_resources (env : WindowEnv) (newW newH : Nat)
    (d : DXDevice) (w : DXWindowContext)
    (hne : newW ≠ w.pixelWidth ∨ newH ≠ w.pixelHeight)
    (herr : (DXWindowContext.OnResizeInternal env newW newH d w).err = none) :
    (DXWindowContext.OnResizeInternal env newW newH d w).window.resourceList =
      w.resourceList.map fun r =>
        if r.IsInitialized then r else { handle := some w.nextContextId } := by
  unfold DXWindowContext.OnResizeInternal at herr ⊢
  rw [if_pos hne] at herr ⊢
  dsimp only at herr ⊢
  have hnone : (DXWindowContext.EnsureInitialized env d
      (({ w with pixelWidth := newW, pixelHeight := newH } :
        DXWindowContext).ResetWindow)).err = none := by
    cases hs : (DXWindowContext.EnsureInitialized env d
        (({ w with pixelWidth := newW, pixelHeight := newH } :
          DXWindowContext).ResetWindow)).err with
    | none => rfl
    | some e =>
      rw [hs] at herr
      simp at herr
  obtain ⟨d1, hd1, hEq⟩ := windowEnsure_none_ok env d
    (({ w with pixelWidth := newW, pixelHeight := newH } :
      DXWindowContext).ResetWindow) rfl hnone
  rw [hEq]
  rfl

/-- Witness for C7's amended statement at the counterexample's input: the
initialized resource keeps its instance-0 handle, the uninitialized one is
created against the new instance-1 context. -/
theorem resize_keeps_initialized_resources_witness :
    (DXWindowContext.OnResizeInternal envOkWin 200 100 dInit wRes).window.resourceList =
      wRes.resourceList.map (fun r =>
        if r.IsInitialized then r else { handle := some wRes.nextContextId }) :=
  resize_keeps_initialized_resources envOkWin 200 100 dInit wRes
    (Or.inl (by decide)) rfl

/-- ResetDevice always clears the window's swap chain, drawing context and
registered resources, whether or not it also resets the shared device. -/
lemma resetDevice_window (d : DXDevice) (w : DXWindowContext) :
    (DXWindowContext.ResetDevice d w).2 =
      { w with
        swapChain := false
        d2dContext := none
        resourceList := ResourceList2D.ResetAll w.resourceList } := by
  unfold DXWindowContext.ResetDevice DXWindowContext.ResetWindow
  dsimp only
  split <;> rfl

/-- ResetDevice resets the shared device exactly when the captured generation
still equals the device's generation. -/
lemma resetDevice_fresh (d : DXDevice) (w : DXWindowContext)
    (h : w.deviceGeneration = d.generation) :
    (DXWindowContext.ResetDevice d w).1 = d.Reset := by
  unfold DXWindowContext.ResetDevice DXWindowContext.ResetWindow
  dsimp only
  rw [if_pos h]

/-- ResetDevice leaves the shared device untouched when the captured
generation is stale. -/
lemma resetDevice_stale (d : DXDevice) (w : DXWindowContext)
    (h : w.deviceGeneration ≠ d.generation) :
    (DXWindowContext.ResetDevice d w).1 = d := by
  unfold DXWindowContext.ResetDevice DXWindowContext.ResetWindow
  dsimp only
  rw [if_neg h]

/-- C2: two window contexts A and B share one device, both with captured
generation equal to the device's. A's ResetDevice resets the shared device;
A's subsequent (successful) EnsureInitialized bumps the generation exactly
once. B's later ResetDevice finds its captured generation stale, so it
leaves the device — state and generation — entirely unchanged, while still
clearing B's own swap chain, drawing context and registered resources. -/
theorem shared_device_single_reset (env : WindowEnv) (d : DXDevice)
    (a b : DXWindowContext)
    (ha : a.deviceGeneration = d.generation)
    (hb : b.deviceGeneration = d.generation)
    (hok : (DXWindowContext.EnsureInitialized env
      (DXWindowContext.ResetDevice d a).1
      (DXWindowContext.ResetDevice d a).2).err = none) :
    (DXWindowContext.ResetDevice d a).1 = d.Reset ∧
    (DXWindowContext.EnsureInitialized env (DXWindowContext.ResetDevice d a).1
      (DXWindowContext.ResetDevice d a).2).device.generation =
      d.generation + 1 ∧
    (DXWindowContext.ResetDevice
      (DXWindowContext.EnsureInitialized env (DXWindowContext.ResetDevice d a).1
        (DXWindowContext.ResetDevice d a).2).device b).1 =
      (DXWindowContext.EnsureInitialized env (DXWindowContext.ResetDevice d a).1
        (DXWindowContext.ResetDevice d a).2).device ∧
    (DXWindowContext.ResetDevice
      (DXWindowContext.EnsureInitialized env (DXWindowContext.ResetDevice d a).1
        (DXWindowContext.ResetDevice d a).2).device b).2 =
      { b with
        swapChain := false
        d2dContext := none
        resourceList := ResourceList2D.ResetAll b.resourceList } := by
  have hA1 : (DXWindowContext.ResetDevice d a).1 = d.Reset :=
    resetDevice_fresh d a ha
  have hA2 : (DXWindowContext.ResetDevice d a).2.d2dContext = none := by
    rw [resetDevice_window]
  obtain ⟨d1, hd1, hEq⟩ := windowEnsure_none_ok env
    (DXWindowContext.ResetDevice d a).1 (DXWindowContext.ResetDevice d a).2
    hA2 hok
  have hgen : d1.generation = d.generation + 1 := by
    rw [hA1] at hd1
    rcases DXDevice.ensureInit_cases env.deviceEnv d.Reset with
      ⟨hi, _⟩ | ⟨_, e, he⟩ | ⟨_, h⟩
    · exact absurd hi (by simp [DXDevice.IsInitialized, DXDevice.Reset])
    · rw [he] at hd1
      exact absurd hd1 (by simp)
    · rw [h] at hd1
      injection hd1 with hd1
      rw [← hd1]
      rfl
  have hdev : (DXWindowContext.EnsureInitialized env
      (DXWindowContext.ResetDevice d a).1
      (DXWindowContext.ResetDevice d a).2).device = d1 := by
    rw [hEq]
  have hstale : b.deviceGeneration ≠ d1.generation := by
    rw [hb, hgen]
    omega
  refine ⟨hA1, ?_, ?_, ?_⟩
  · rw [hdev, hgen]
  · rw [hdev]
    exact resetDevice_stale d1 b hstale
  · rw [hdev]
    exact resetDevice_window d1 b

/-- A second window context sharing the device with wInit: captured
generation 1, its own context instance and one initialized resource. -/
def wSib : DXWindowContext :=
  { deviceGeneration := 1, pixelWidth := 50, pixelHeight := 60, dpi := 96
    swapChain := true, d2dContext := some 0
    resourceList := [{ handle := some 0 }]
    nextContextId := 1 }

/-- Witness for C2: concrete contexts wInit and wSib both captured at
dInit's generation 1; A = wInit resets and reinitializes, B = wSib then
calls ResetDevice and leaves the device untouched. -/
theorem shared_device_single_reset_witness :
    (DXWindowContext.ResetDevice dInit wInit).1 = dInit.Reset ∧
    (DXWindowContext.EnsureInitialized envOkWin
      (DXWindowContext.ResetDevice dInit wInit).1
      (DXWindowContext.ResetDevice dInit wInit).2).device.generation =
      dInit.generation + 1 ∧
    (DXWindowContext.ResetDevice
      (DXWindowContext.EnsureInitialized envOkWin
        (DXWindowContext.ResetDevice dInit wInit).1
        (DXWindowContext.ResetDevice dInit wInit).2).device wSib).1 =
      (DXWindowContext.EnsureInitialized envOkWin
        (DXWindowContext.ResetDevice dInit wInit).1
        (DXWindowContext.ResetDevice dInit wInit).2).device ∧
    (DXWindowContext.ResetDevice
      (DXWindowContext.EnsureInitialized envOkWin
        (DXWindowContext.ResetDevice dInit wInit).1
        (DXWindowContext.ResetDevice dInit wInit).2).device wSib).2 =
      { wSib with
        swapChain := false
        d2dContext := none
        resourceList := ResourceList2D.ResetAll wSib.resourceList } :=
  shared_device_single_reset envOkWin dInit wInit wSib rfl rfl rfl

/-- The pairing invariant on a window context: the presentation-surface
(swap chain) handle and the drawing-context handle are both present or both
absent together. -/
def DXWindowContext.surfacePaired (w : DXWindowContext) : Prop :=
  w.swapChain = w.d2dContext.isSome

/-- ResetWindow clears both handles, so the result is always paired. -/
lemma resetWindow_paired (w : DXWindowContext) :
    (DXWindowContext.ResetWindow w).surfacePaired := rfl

/-- ResetDevice clears both handles, so the result is always paired. -/
lemma resetDevice_paired (d : DXDevice) (w : DXWindowContext) :
    (DXWindowContext.ResetDevice d w).2.surfacePaired := by
  rw [resetDevice_window]
  rfl

/-- EnsureInitialized preserves the pairing invariant: every exit path either
leaves both handles as they were or sets both. -/
lemma windowEnsure_paired (env : WindowEnv) (d : DXDevice)
    (w : DXWindowContext) (h : w.surfacePaired) :
    (DXWindowContext.EnsureInitialized env d w).window.surfacePaired := by
  unfold DXWindowContext.EnsureInitialized
  split
  · exact h
  · split
    · exact h
    · dsimp only
      split
      · exact h
      · split
        · exact h
        · rfl

/-- PaintInternal only changes the window through EnsureInitialized, so it
preserves the pairing invariant. -/
lemma paintInternal_paired (p : PaintEnv) (d : DXDevice)
    (w : DXWindowContext) (h : w.surfacePaired) :
    (DXWindowContext.PaintInternal p d w).window.surfacePaired := by
  have he := windowEnsure_paired p.winEnv d w h
  unfold DXWindowContext.PaintInternal
  dsimp only
  split
  · exact he
  · split
    · exact he
    · split
      · exact he
      · split
        · exact he
        · exact he

/-- A resize notification preserves the pairing invariant on every path. -/
lemma resize_paired (env : WindowEnv) (newW newH : Nat) (d : DXDevice)
    (w : DXWindowContext) (h : w.surfacePaired) :
    (DXWindowContext.OnResizeInternal env newW newH d w).window.surfacePaired := by
  unfold DXWindowContext.OnResizeInternal
  split
  · dsimp only
    have he := windowEnsure_paired env d
      (({ w with pixelWidth := newW, pixelHeight := newH } :
        DXWindowContext).ResetWindow)
      (resetWindow_paired { w with pixelWidth := newW, pixelHeight := newH })
    split
    · exact he
    · exact he
  · exact h

/-- Paint preserves the pairing invariant: the retry path passes through
ResetDevice (which clears both handles) before the second attempt. -/
lemma paint_paired (p1 p2 : PaintEnv) (d : DXDevice) (w : DXWindowContext)
    (h : w.surfacePaired) :
    (DXWindowContext.Paint p1 p2 d w).window.surfacePaired := by
  have h1 := paintInternal_paired p1 d w h
  unfold DXWindowContext.Paint
  dsimp only
  split
  · exact h1
  · split
    · exact paintInternal_paired p2 _ _ (resetDevice_paired _ _)
    · exact h1

/-- C9: every observable DXWindowContext operation — ResetWindow,
ResetDevice, EnsureInitialized (including a failure partway through), a
resize notification, PaintInternal and Paint — preserves the invariant that
the swap-chain handle and the drawing-context handle are both present or
both absent together. -/
theorem surface_context_pairing (env : WindowEnv) (p1 p2 : PaintEnv)
    (newW newH : Nat) (d : DXDevice) (w : DXWindowContext)
    (h : w.surfacePaired) :
    (DXWindowContext.ResetWindow w).surfacePaired ∧
    (DXWindowContext.ResetDevice d w).2.surfacePaired ∧
    (DXWindowContext.EnsureInitialized env d w).window.surfacePaired ∧
    (DXWindowContext.OnResizeInternal env newW newH d w).window.surfacePaired ∧
    (DXWindowContext.PaintInternal p1 d w).window.surfacePaired ∧
    (DXWindowContext.Paint p1 p2 d w).window.surfacePaired :=
  ⟨resetWindow_paired w, resetDevice_paired d w,
   windowEnsure_paired env d w h, resize_paired env newW newH d w h,
   paintInternal_paired p1 d w h, paint_paired p1 p2 d w h⟩

/-- An EnsureInitialized environment that fails partway through surface
construction: the swap-chain creation call reports E_FAIL. -/
def envFailSwap : WindowEnv :=
  { deviceEnv := envOkDev, getAdapterHR := 0, getParentHR := 0
    createSwapChainHR := E_FAIL, getBufferHR := 0, createDeviceContextHR := 0
    createBitmapHR := 0, brushCreateHR := 0 }

/-- A torn-down window context (both handles absent) sharing dInit. -/
def wTorn : DXWindowContext :=
  { deviceGeneration := 1, pixelWidth := 100, pixelHeight := 100, dpi := 96
    swapChain := false, d2dContext := none, resourceList := []
    nextContextId := 1 }

/-- Witness for C9 at concrete inputs, under an environment whose
EnsureInitialized fails partway through (swap-chain creation fails). -/
theorem surface_context_pairing_witness :
    (DXWindowContext.ResetWindow wTorn).surfacePaired ∧
    (DXWindowContext.ResetDevice dInit wTorn).2.surfacePaired ∧
    (DXWindowContext.EnsureInitialized envFailSwap dInit wTorn).window.surfacePaired ∧
    (DXWindowContext.OnResizeInternal envFailSwap 200 100 dInit
      wTorn).window.surfacePaired ∧
    (DXWindowContext.PaintInternal
      { winEnv := envFailSwap, renderError := none, endDrawHR := 0
        presentHR := 0 } dInit wTorn).window.surfacePaired ∧
    (DXWindowContext.Paint
      { winEnv := envFailSwap, renderError := none, endDrawHR := 0
        presentHR := 0 }
      { winEnv := envFailSwap, renderError := none, endDrawHR := 0
        presentHR := 0 } dInit wTorn).window.surfacePaired :=
  surface_context_pairing envFailSwap
    { winEnv := envFailSwap, renderError := none, endDrawHR := 0
      presentHR := 0 }
    { winEnv := envFailSwap, renderError := none, endDrawHR := 0
      presentHR := 0 }
    200 100 dInit wTorn rfl

/-- A window context of 1000×800 physical pixels at DPI 192. -/
def w192 : DXWindowContext :=
  { deviceGeneration := 0, pixelWidth := 1000, pixelHeight := 800, dpi := 192
    swapChain := false, d2dContext := none, resourceList := []
    nextContextId := 0 }

/-- A window context of 1000×800 physical pixels at DPI 96. -/
def w96 : DXWindowContext :=
  { deviceGeneration := 0, pixelWidth := 1000, pixelHeight := 800, dpi := 96
    swapChain := false, d2dContext := none, resourceList := []
    nextContextId := 0 }

/-- Witness for C10 at the spec's concrete inputs: width 1000 at DPI 192
gives 500 DIPs; DPI 96 leaves the pixel sizes unchanged. -/
theorem dips_scale_witness :
    w192.GetWidthDips = 500 ∧
    w96.GetWidthDips = (w96.pixelWidth : ℚ) ∧
    w96.GetHeightDips = (w96.pixelHeight : ℚ) := by
  exact ⟨(dips_scale w192).2.2.1 rfl rfl, (dips_scale w96).2.2.2.1 rfl,
    (dips_scale w96).2.2.2.2 rfl⟩

end DXHello
